import Mathlib

/-!
Shallow embedding of `src/actionCreator.ts` (easy-redux action registration
engine).  JavaScript values are modelled by `JVal`, parametrised by an abstract
type `P` of promise-producing function references (these functions are never
executed by the core, so reference identity is all that matters).  Handler
slots (`Slot`) record whether a supplied value is a function (with its Lean
semantics) or a non-function JS value, mirroring `typeof x === 'function'`.
Objects are association lists in literal order; a later binding for the same
key overrides an earlier one, as in JS object literals, so field lookup is
last-match.  Thrown errors are `Except.error` with the exact message string;
the `mergeReducer` side effect is modelled by returning the merged key and
reducer in the `Registration` value, so an error result means nothing was
merged.
-/

/-- A JavaScript value.  `jfn` is a function reference of abstract type `P`
(used for `promise` fields); `jnan` models `NaN`; arrays are kept separate
from plain objects because `Object.keys` returns an array. -/
inductive JVal (P : Type) where
  | undefined
  | jnull
  | jbool (b : Bool)
  | jnum (n : Int)
  | jnan
  | jstr (s : String)
  | jobj (fields : List (String × JVal P))
  | jarr (elems : List (JVal P))
  | jfn (f : P)

/-- JavaScript truthiness: `undefined`, `null`, `false`, `0`, `NaN` and `""`
are falsy; objects, arrays and functions are always truthy. -/
def jtruthy {P : Type} : JVal P → Bool
  | .undefined => false
  | .jnull => false
  | .jbool b => b
  | .jnum n => n != 0
  | .jnan => false
  | .jstr s => s != ""
  | .jobj _ => true
  | .jarr _ => true
  | .jfn _ => true

/-- JavaScript `a || b`: the first operand when truthy, otherwise the second. -/
def jsOr {P : Type} (a b : JVal P) : JVal P :=
  if jtruthy a then a else b

/-- Property lookup on an object represented as an association list in literal
order: the LAST binding for the key wins (JS literal semantics); a missing
property reads as `undefined`. -/
def getField {P : Type} (fs : List (String × JVal P)) (k : String) : JVal P :=
  (fs.foldl (fun acc kv => if kv.1 = k then some kv.2 else acc) none).getD .undefined

/-- Rest-destructuring `{promise, type, ...rest}`: the remaining fields after
removing every binding of the listed keys. -/
def removeKeys {P : Type} (fs : List (String × JVal P)) (ks : List String) :
    List (String × JVal P) :=
  fs.filter (fun kv => !(ks.contains kv.1))

/-- A non-function JavaScript value, for handler slots that fail
`typeof x === 'function'`.  Object contents are irrelevant to the check, so
objects are opaque references. -/
inductive JNonFn where
  | undefined
  | jnull
  | jbool (b : Bool)
  | jnum (n : Int)
  | jnan
  | jstr (s : String)
  | jobjRef (id : Nat)
deriving DecidableEq

/-- A JS value sitting in a slot that the code may treat as a function of
type `F`: either an actual function (with its Lean semantics) or a
non-function value. -/
inductive Slot (F : Type) where
  | fn (f : F)
  | nonFn (v : JNonFn)

/-- `typeof thing === 'function'` (src line 145). -/
def isFunction {F : Type} : Slot F → Bool
  | .fn _ => true
  | .nonFn _ => false

/-- Invoking a slot as a two-argument function.  After `checkAsyncHandlers`
succeeds every slot invoked by a reducer is `fn`, so the `nonFn` branch (which
in JS would throw a TypeError) is never reached in any surviving execution. -/
def Slot.app {σ α : Type} : Slot (σ → α → σ) → σ → α → σ
  | .fn f, s, a => f s a
  | .nonFn _, s, _ => s

/-- A dispatched action as seen by a reducer: a `type` tag plus payload. -/
structure DAction (P : Type) where
  type : String
  payload : List (String × JVal P) := []

/-- The `IAsyncActionHandlers` record: three handler slots. -/
structure HandlersArg (P : Type) where
  onWait : Slot (JVal P → DAction P → JVal P)
  onSuccess : Slot (JVal P → DAction P → JVal P)
  onFail : Slot (JVal P → DAction P → JVal P)

/-- The `IActionOptions` record.  `action` is the payload builder (variadic
arguments modelled as a list, returning the built object's field list);
omitted fields default to `undefined` / absent, as for a JS caller that leaves
them out. -/
structure ActionOptions (P : Type) where
  action : List (JVal P) → List (String × JVal P)
  async : JVal P := .undefined
  storeKey : JVal P := .undefined
  handlers : Option (HandlersArg P) := none
  handler : Slot (JVal P → DAction P → JVal P) := .nonFn .undefined
  initialState : JVal P := .undefined

/-- The outcome of a successful `createAction` call: the key and reducer
passed to `mergeReducer`, plus the returned action-creator function. -/
structure Registration (P : Type) where
  mergedKey : JVal P
  reducer : Option (JVal P) → DAction P → JVal P
  creator : List (JVal P) → Except String (List (String × JVal P))

/-- Error text of `checkAsyncHandlers` (src line 130). -/
def errMessage (fnName : String) : String :=
  "Expected that the " ++ fnName ++ " will be a function, and will returns new state"

/-- `checkAsyncHandlers` (src lines 128-143): each of the three handlers must
be a function, checked in the order `onWait`, `onSuccess`, `onFail`. -/
def checkAsyncHandlers {P : Type} (handlers : HandlersArg P) : Except String Unit :=
  if !isFunction handlers.onWait then .error (errMessage "onWait")
  else if !isFunction handlers.onSuccess then .error (errMessage "onSuccess")
  else if !isFunction handlers.onFail then .error (errMessage "onFail")
  else .ok ()

/-- The async reducer closure (src lines 58-70): switch on the incoming
action's type over the three lifecycle tags, identity otherwise; an
`undefined` state argument defaults to the initial state. -/
def asyncReducer {P : Type} (WAIT SUCCESS FAIL : String) (handlers : HandlersArg P)
    (initialState : JVal P) (state : Option (JVal P)) (a : DAction P) : JVal P :=
  let s := state.getD initialState
  if a.type = WAIT then handlers.onWait.app s a
  else if a.type = SUCCESS then handlers.onSuccess.app s a
  else if a.type = FAIL then handlers.onFail.app s a
  else s

/-- The sync reducer closure (src line 78): delegate exactly when the action
type equals the action name, identity otherwise, same initial-state default. -/
def syncReducer {P : Type} (name : String) (handler : JVal P → DAction P → JVal P)
    (initialState : JVal P) (state : Option (JVal P)) (a : DAction P) : JVal P :=
  let s := state.getD initialState
  if a.type = name then handler s a else s

/-- The action-creator closure returned by `createAction` (src lines 83-98):
run the payload builder on the arguments, destructure out `promise` and
`type`, then shape the result by mode.  Async mode requires a function-valued
`promise`. -/
def mkCreator {P : Type} (name WAIT SUCCESS FAIL : String) (asyncMode : Bool)
    (action : List (JVal P) → List (String × JVal P)) (args : List (JVal P)) :
    Except String (List (String × JVal P)) :=
  let built := action args
  let promise := getField built "promise"
  let actionPayload := removeKeys built ["promise", "type"]
  if asyncMode then
    match promise with
    | .jfn p =>
        .ok (("types", .jarr [.jstr WAIT, .jstr SUCCESS, .jstr FAIL])
              :: ("promise", .jfn p) :: actionPayload)
    | _ => .error ("Async action " ++ name ++ " should return promise property of Function type")
  else
    .ok (("type", .jstr name) :: actionPayload)

/-- `createAction` (src lines 39-99).  The source branches
`if (async && handlers) … else if (async && !handlers) … else …`, which is
reproduced here as a truthiness test on `async` followed by a match on
`handlers`.  Success carries the merged key, the built reducer and the
creator; every thrown error happens before `mergeReducer`, so an error result
means no reducer was merged. -/
def createAction {P : Type} (name : String) (o : ActionOptions P) :
    Except String (Registration P) :=
  let WAIT := "WAIT@" ++ name
  let SUCCESS := "SUCCESS@" ++ name
  let FAIL := "FAIL@" ++ name
  if !jtruthy o.initialState then
    .error "Initial state should not be null or undefined"
  else if !jtruthy o.storeKey then
    .error ("Store key at action " ++ name ++ " not defined")
  else if jtruthy o.async then
    match o.handlers with
    | some hs =>
        match checkAsyncHandlers hs with
        | .error e => .error e
        | .ok _ =>
            .ok { mergedKey := o.storeKey
                  reducer := asyncReducer WAIT SUCCESS FAIL hs o.initialState
                  creator := mkCreator name WAIT SUCCESS FAIL true o.action }
    | none => .error ("Expected handlers in async action " ++ name)
  else
    match o.handler with
    | .nonFn _ =>
        .error ("Expected that synchronous action " ++ name ++
          " handler will be a function, and it will returns new state")
    | .fn h =>
        .ok { mergedKey := o.storeKey
              reducer := syncReducer name h o.initialState
              creator := mkCreator name WAIT SUCCESS FAIL false o.action }

/-- The `ICreateActionsOptions` record: the actions mapping (association list
in `Object.entries` order) plus global defaults. -/
structure CreateActionsOptions (P : Type) where
  actions : List (String × ActionOptions P)
  initialState : JVal P := .undefined
  storeKey : JVal P := .undefined

/-- Per-entry option resolution inside `createActions` (src lines 106-123):
`async = optionAsync || !!handlers`, and `initialState` / `storeKey` fall back
to the globals via `||`. -/
def resolveEntry {P : Type} (e : ActionOptions P) (globalInitialState globalStoreKey : JVal P) :
    ActionOptions P :=
  { action := e.action
    async := jsOr e.async (.jbool e.handlers.isSome)
    storeKey := jsOr e.storeKey globalStoreKey
    handlers := e.handlers
    handler := e.handler
    initialState := jsOr e.initialState globalInitialState }

/-- `Object.keys(actions)`: always an array, hence always truthy. -/
def objectKeys {P : Type} (actions : List (String × ActionOptions P)) : JVal P :=
  .jarr (actions.map (fun kv => .jstr kv.1))

/-- The `reduce` over `Object.entries(actions)` (src lines 106-125): register
each entry in order, accumulating `res[actionName] = createAction(...)`; a
thrown error aborts the whole call. -/
def registerEntries {P : Type} (globalInitialState globalStoreKey : JVal P) :
    List (String × ActionOptions P) → List (String × Registration P) →
    Except String (List (String × Registration P))
  | [], res => .ok res
  | kv :: rest, res =>
      match createAction kv.1 (resolveEntry kv.2 globalInitialState globalStoreKey) with
      | .ok reg => registerEntries globalInitialState globalStoreKey rest (res ++ [(kv.1, reg)])
      | .error e => .error e

/-- `createActions` (src lines 101-126).  The guard is the source's
`if (!Object.keys(actions))`: `Object.keys` returns an array, which is always
truthy, so the guard never fires — reproduced faithfully. -/
def createActions {P : Type} (options : CreateActionsOptions P) :
    Except String (List (String × Registration P)) :=
  if !jtruthy (objectKeys options.actions) then
    .error "No any action passed"
  else
    registerEntries options.initialState options.storeKey options.actions []

/-! ### Helper lemmas -/

lemma success_ne_wait (n : String) : ("SUCCESS@" ++ n) ≠ ("WAIT@" ++ n) := by
  intro h
  have h2 := congrArg String.data h
  rw [String.data_append, String.data_append] at h2
  simp at h2

lemma fail_ne_wait (n : String) : ("FAIL@" ++ n) ≠ ("WAIT@" ++ n) := by
  intro h
  have h2 := congrArg String.data h
  rw [String.data_append, String.data_append] at h2
  simp at h2

lemma fail_ne_success (n : String) : ("FAIL@" ++ n) ≠ ("SUCCESS@" ++ n) := by
  intro h
  have h2 := congrArg String.data h
  rw [String.data_append, String.data_append] at h2
  simp at h2

lemma mkCreator_async_fn {P : Type} (name W S F : String)
    (action : List (JVal P) → List (String × JVal P)) (args : List (JVal P)) (p : P)
    (hp : getField (action args) "promise" = .jfn p) :
    mkCreator name W S F true action args =
      .ok (("types", .jarr [.jstr W, .jstr S, .jstr F]) :: ("promise", .jfn p)
            :: removeKeys (action args) ["promise", "type"]) := by
  simp only [mkCreator]
  rw [hp]
  rfl

lemma mkCreator_async_nonfn {P : Type} (name W S F : String)
    (action : List (JVal P) → List (String × JVal P)) (args : List (JVal P))
    (hp : ∀ p : P, getField (action args) "promise" ≠ .jfn p) :
    mkCreator name W S F true action args =
      .error ("Async action " ++ name ++ " should return promise property of Function type") := by
  simp only [mkCreator]
  rcases hv : getField (action args) "promise" with _ | _ | b | n | _ | s | fs | es | f
  case jfn => exact absurd hv (hp f)
  all_goals rfl

lemma createAction_async_ok {P : Type} (name : String) (o : ActionOptions P)
    (reg : Registration P) (hs : HandlersArg P)
    (hreg : createAction name o = .ok reg)
    (hasync : jtruthy o.async = true)
    (hhs : o.handlers = some hs) :
    reg = { mergedKey := o.storeKey
            reducer := asyncReducer ("WAIT@" ++ name) ("SUCCESS@" ++ name) ("FAIL@" ++ name)
                         hs o.initialState
            creator := mkCreator name ("WAIT@" ++ name) ("SUCCESS@" ++ name) ("FAIL@" ++ name)
                         true o.action } := by
  unfold createAction at hreg
  rw [hhs] at hreg
  split at hreg
  · exact absurd hreg (by simp)
  · split at hreg
    · exact absurd hreg (by simp)
    · split at hreg
      · rename_i hs2 heq
        injection heq with heq2
        subst heq2
        split at hreg
        · exact absurd hreg (by simp)
        · rw [Except.ok.injEq] at hreg
          exact hreg.symm
      · rename_i heq
        exact absurd heq (by simp)

lemma createAction_sync_ok {P : Type} (name : String) (o : ActionOptions P)
    (reg : Registration P) (h : JVal P → DAction P → JVal P)
    (hreg : createAction name o = .ok reg)
    (hasync : jtruthy o.async = false)
    (hh : o.handler = .fn h) :
    reg = { mergedKey := o.storeKey
            reducer := syncReducer name h o.initialState
            creator := mkCreator name ("WAIT@" ++ name) ("SUCCESS@" ++ name) ("FAIL@" ++ name)
                         false o.action } := by
  unfold createAction at hreg
  rw [hh] at hreg
  split at hreg
  · exact absurd hreg (by simp)
  · split at hreg
    · exact absurd hreg (by simp)
    · split at hreg
      · rename_i heq
        rw [hasync] at heq
        exact absurd heq (by simp)
      · simp only [Except.ok.injEq] at hreg
        exact hreg.symm

lemma createAction_ok_async_creator {P : Type} (name : String) (o : ActionOptions P)
    (reg : Registration P)
    (hreg : createAction name o = .ok reg)
    (hasync : jtruthy o.async = true) :
    reg.creator =
      mkCreator name ("WAIT@" ++ name) ("SUCCESS@" ++ name) ("FAIL@" ++ name) true o.action := by
  unfold createAction at hreg
  split at hreg
  · exact absurd hreg (by simp)
  · split at hreg
    · exact absurd hreg (by simp)
    · split at hreg
      · split at hreg
        · exact absurd hreg (by simp)
        · rw [Except.ok.injEq] at hreg
          rw [← hreg]
      · exact absurd hreg (by simp)

lemma createAction_ok_sync_creator {P : Type} (name : String) (o : ActionOptions P)
    (reg : Registration P)
    (hreg : createAction name o = .ok reg)
    (hasync : jtruthy o.async = false) :
    reg.creator =
      mkCreator name ("WAIT@" ++ name) ("SUCCESS@" ++ name) ("FAIL@" ++ name) false o.action := by
  unfold createAction at hreg
  split at hreg
  · exact absurd hreg (by simp)
  · split at hreg
    · exact absurd hreg (by simp)
    · split at hreg
      · rename_i heq
        rw [hasync] at heq
        exact absurd heq (by simp)
      · split at hreg
        · exact absurd hreg (by simp)
        · rw [Except.ok.injEq] at hreg
          rw [← hreg]

lemma foldl_keep {P : Type} (k : String) (acc : Option (JVal P))
    (rest : List (String × JVal P)) (hne : ∀ kv ∈ rest, kv.1 ≠ k) :
    rest.foldl (fun acc kv => if kv.1 = k then some kv.2 else acc) acc = acc := by
  induction rest generalizing acc with
  | nil => rfl
  | cons kv rest ih =>
      rw [List.foldl_cons, if_neg (hne kv (by simp))]
      exact ih acc (fun kv2 h2 => hne kv2 (List.mem_cons_of_mem _ h2))

lemma getField_cons_self {P : Type} (k : String) (v : JVal P)
    (rest : List (String × JVal P)) (hne : ∀ kv ∈ rest, kv.1 ≠ k) :
    getField ((k, v) :: rest) k = v := by
  unfold getField
  rw [List.foldl_cons, if_pos rfl, foldl_keep k (some v) rest hne]
  rfl

lemma removeKeys_not_key {P : Type} (fs : List (String × JVal P)) (ks : List String)
    (k : String) (hk : k ∈ ks) : ∀ kv ∈ removeKeys fs ks, kv.1 ≠ k := by
  intro kv hm he
  rw [removeKeys, List.mem_filter] at hm
  rw [he] at hm
  simp [List.contains, List.elem_eq_mem, hk] at hm

lemma registerEntries_ok_spec {P : Type} (gI gK : JVal P) :
    ∀ (acts : List (String × ActionOptions P)) (res m : List (String × Registration P)),
      registerEntries gI gK acts res = .ok m →
      ∃ tail, m = res ++ tail ∧ tail.map Prod.fst = acts.map Prod.fst ∧
        ∀ i (hi : i < acts.length) (ht : i < tail.length),
          createAction (acts.get ⟨i, hi⟩).1 (resolveEntry (acts.get ⟨i, hi⟩).2 gI gK)
            = .ok (tail.get ⟨i, ht⟩).2 := by
  intro acts
  induction acts with
  | nil =>
      intro res m hm
      refine ⟨[], ?_, rfl, ?_⟩
      · have : res = m := by simpa [registerEntries] using hm
        simp [this]
      · intro i hi
        exact absurd hi (by simp)
  | cons kv rest ih =>
      intro res m hm
      unfold registerEntries at hm
      split at hm
      · rename_i reg hca
        obtain ⟨tail, hm1, hmap, hget⟩ := ih (res ++ [(kv.1, reg)]) m hm
        refine ⟨(kv.1, reg) :: tail, by simp [hm1], by simp [hmap], ?_⟩
        intro i hi ht
        cases i with
        | zero => exact hca
        | succ j =>
            exact hget j (by simpa using hi) (by simpa using ht)
      · rename_i e hca
        exact absurd hm (by simp)

/-! ### Demonstration values used by witnesses -/

/-- A trivial payload builder. -/
def demoAction : List (JVal Nat) → List (String × JVal Nat) := fun _ => []

/-- Demo `onWait` handler. -/
def demoW : JVal Nat → DAction Nat → JVal Nat := fun _ _ => .jstr "waited"

/-- Demo `onSuccess` handler. -/
def demoS : JVal Nat → DAction Nat → JVal Nat := fun _ _ => .jstr "succeeded"

/-- Demo `onFail` handler. -/
def demoF : JVal Nat → DAction Nat → JVal Nat := fun _ _ => .jstr "failed"

/-- Demo sync handler. -/
def demoH : JVal Nat → DAction Nat → JVal Nat := fun _ _ => .jstr "handled"

/-- Demo valid async handlers record. -/
def demoHandlers : HandlersArg Nat := ⟨.fn demoW, .fn demoS, .fn demoF⟩

/-- Demo builder whose result has a function-valued `promise` plus a payload
field. -/
def c2Action : List (JVal Nat) → List (String × JVal Nat) :=
  fun _ => [("promise", .jfn 7), ("x", .jnum 1)]

/-- Demo valid async registration options. -/
def c2Options : ActionOptions Nat :=
  { action := c2Action, async := .jbool true, storeKey := .jstr "k",
    handlers := some demoHandlers, initialState := .jobj [] }

/-- The registration that `createAction "a" c2Options` produces. -/
def c2Reg : Registration Nat :=
  { mergedKey := .jstr "k"
    reducer := asyncReducer ("WAIT@" ++ "a") ("SUCCESS@" ++ "a") ("FAIL@" ++ "a")
                 demoHandlers (.jobj [])
    creator := mkCreator "a" ("WAIT@" ++ "a") ("SUCCESS@" ++ "a") ("FAIL@" ++ "a")
                 true c2Action }

/-! ### Claim theorems -/

/-- Claim C1 (code bug): the source intends `createActions` on an empty
actions mapping to raise the "No any action passed" error, but the guard
`if (!Object.keys(actions))` tests an array, which is always truthy, so the
error is unreachable: the empty mapping instead returns an empty mapping of
creators. -/
theorem C1_empty_actions_returns_empty :
    createActions (P := Nat)
        { actions := [], initialState := .jobj [], storeKey := .jstr "K" }
      = .ok [] := rfl

/-- Claim C2: for a creator returned by a valid asynchronous registration,
invoking it with arguments runs the payload builder; if the builder's result
has a function-valued `promise` field, the creator returns
`{types: [WAIT@name, SUCCESS@name, FAIL@name], promise, ...payload}` where
`promise` is exactly the builder's function and `payload` is the builder's
result minus its `promise` and `type` fields; otherwise it raises the fatal
error naming the action. -/
theorem C2_async_creator_shape {P : Type} (name : String) (o : ActionOptions P)
    (reg : Registration P)
    (hreg : createAction name o = .ok reg)
    (hasync : jtruthy o.async = true)
    (args : List (JVal P)) :
    (∀ p : P, getField (o.action args) "promise" = .jfn p →
        reg.creator args =
          .ok (("types", .jarr [.jstr ("WAIT@" ++ name), .jstr ("SUCCESS@" ++ name),
                                .jstr ("FAIL@" ++ name)])
                :: ("promise", .jfn p) :: removeKeys (o.action args) ["promise", "type"]))
    ∧ ((∀ p : P, getField (o.action args) "promise" ≠ .jfn p) →
        reg.creator args =
          .error ("Async action " ++ name ++ " should return promise property of Function type")) := by
  have hcr := createAction_ok_async_creator name o reg hreg hasync
  constructor
  · intro p hp
    rw [hcr]
    exact mkCreator_async_fn name _ _ _ o.action args p hp
  · intro hp
    rw [hcr]
    exact mkCreator_async_nonfn name _ _ _ o.action args hp

/-- Witness for C2 at a concrete registration: the creator returns the types
triple, the identical promise function `7`, and the remaining payload. -/
theorem C2_witness :
    c2Reg.creator [] =
      .ok [("types", .jarr [.jstr "WAIT@a", .jstr "SUCCESS@a", .jstr "FAIL@a"]),
           ("promise", .jfn 7), ("x", .jnum 1)] :=
  (C2_async_creator_shape "a" c2Options c2Reg rfl rfl []).1 7 rfl

/-- Claim C3: a creator returned by a valid synchronous registration returns
`{type: name, ...payload}` where `payload` is the builder's result minus its
`promise` and `type` fields; in particular the result's `type` property is the
registered action name, overriding any `type` field the builder returned. -/
theorem C3_sync_creator_shape {P : Type} (name : String) (o : ActionOptions P)
    (reg : Registration P)
    (hreg : createAction name o = .ok reg)
    (hasync : jtruthy o.async = false)
    (args : List (JVal P)) :
    reg.creator args =
      .ok (("type", .jstr name) :: removeKeys (o.action args) ["promise", "type"])
    ∧ getField (("type", .jstr name) :: removeKeys (o.action args) ["promise", "type"])
        "type" = .jstr name := by
  have hcr := createAction_ok_sync_creator name o reg hreg hasync
  constructor
  · rw [hcr]
    rfl
  · exact getField_cons_self "type" (.jstr name) _
      (removeKeys_not_key (o.action args) ["promise", "type"] "type" (by simp))

/-- Demo builder that returns a `type` field of its own plus a payload
field. -/
def c3Action : List (JVal Nat) → List (String × JVal Nat) :=
  fun _ => [("type", .jstr "bogus"), ("y", .jnum 2)]

/-- Demo valid synchronous registration options. -/
def c3Options : ActionOptions Nat :=
  { action := c3Action, storeKey := .jstr "k", handler := .fn demoH,
    initialState := .jobj [] }

/-- The registration that `createAction "a" c3Options` produces. -/
def c3Reg : Registration Nat :=
  { mergedKey := .jstr "k"
    reducer := syncReducer "a" demoH (.jobj [])
    creator := mkCreator "a" ("WAIT@" ++ "a") ("SUCCESS@" ++ "a") ("FAIL@" ++ "a")
                 false c3Action }

/-- Witness for C3 at a concrete registration: the builder's own `type` field
is discarded and replaced by the action name. -/
theorem C3_witness :
    c3Reg.creator [] = .ok [("type", .jstr "a"), ("y", .jnum 2)]
    ∧ getField (P := Nat) [("type", .jstr "a"), ("y", .jnum 2)] "type" = .jstr "a" :=
  C3_sync_creator_shape "a" c3Options c3Reg rfl rfl []

/-- Claim C4: the reducer built by a valid asynchronous registration sends an
action of type `WAIT@name` (resp. `SUCCESS@name`, `FAIL@name`) to exactly the
corresponding handler, returning that handler's result on the resolved state;
any other type is identity; an `undefined` state argument resolves to the
configured initial state before dispatching. -/
theorem C4_async_reducer_dispatch {P : Type} (name : String) (o : ActionOptions P)
    (reg : Registration P) (hs : HandlersArg P)
    (w s f : JVal P → DAction P → JVal P)
    (hreg : createAction name o = .ok reg)
    (hasync : jtruthy o.async = true)
    (hhs : o.handlers = some hs)
    (hw : hs.onWait = .fn w) (hsu : hs.onSuccess = .fn s) (hf : hs.onFail = .fn f)
    (st : Option (JVal P)) (a : DAction P) :
    (a.type = "WAIT@" ++ name → reg.reducer st a = w (st.getD o.initialState) a)
    ∧ (a.type = "SUCCESS@" ++ name → reg.reducer st a = s (st.getD o.initialState) a)
    ∧ (a.type = "FAIL@" ++ name → reg.reducer st a = f (st.getD o.initialState) a)
    ∧ (a.type ≠ "WAIT@" ++ name → a.type ≠ "SUCCESS@" ++ name → a.type ≠ "FAIL@" ++ name →
        reg.reducer st a = st.getD o.initialState)
    ∧ reg.reducer none a = reg.reducer (some o.initialState) a := by
  have hr := createAction_async_ok name o reg hs hreg hasync hhs
  subst hr
  refine ⟨?_, ?_, ?_, ?_, rfl⟩
  · intro ht
    simp only [asyncReducer, ht, if_pos rfl, hw]
    rfl
  · intro ht
    simp only [asyncReducer, ht, if_neg (success_ne_wait name), if_pos rfl, hsu]
    rfl
  · intro ht
    simp only [asyncReducer, ht, if_neg (fail_ne_wait name), if_neg (fail_ne_success name),
      if_pos rfl, hf]
    rfl
  · intro h1 h2 h3
    simp only [asyncReducer, if_neg h1, if_neg h2, if_neg h3]

/-- The registration that `createAction "b" c4Options` produces, where
`c4Options` is `c2Options` with the trivial builder. -/
def c4Options : ActionOptions Nat :=
  { action := demoAction, async := .jbool true, storeKey := .jstr "k",
    handlers := some demoHandlers, initialState := .jobj [] }

/-- The registration produced for `c4Options` under the name `"b"`. -/
def c4Reg : Registration Nat :=
  { mergedKey := .jstr "k"
    reducer := asyncReducer ("WAIT@" ++ "b") ("SUCCESS@" ++ "b") ("FAIL@" ++ "b")
                 demoHandlers (.jobj [])
    creator := mkCreator "b" ("WAIT@" ++ "b") ("SUCCESS@" ++ "b") ("FAIL@" ++ "b")
                 true demoAction }

/-- Witness for C4: at the concrete async registration `"b"`, a `WAIT@b`
action invokes the `onWait` handler. -/
theorem C4_witness :
    c4Reg.reducer (some (.jnum 5)) { type := "WAIT@b" } = .jstr "waited" :=
  (C4_async_reducer_dispatch "b" c4Options c4Reg demoHandlers demoW demoS demoF
    rfl rfl rfl rfl rfl rfl (some (.jnum 5)) { type := "WAIT@b" }).1 rfl

/-- Claim C5: the reducer built by a valid synchronous registration invokes
the handler exactly when the incoming action's type equals the action name,
returning the handler's result on the resolved state; any other type is
identity; an `undefined` state argument resolves to the configured initial
state. -/
theorem C5_sync_reducer_dispatch {P : Type} (name : String) (o : ActionOptions P)
    (reg : Registration P) (h : JVal P → DAction P → JVal P)
    (hreg : createAction name o = .ok reg)
    (hasync : jtruthy o.async = false)
    (hh : o.handler = .fn h)
    (st : Option (JVal P)) (a : DAction P) :
    (a.type = name → reg.reducer st a = h (st.getD o.initialState) a)
    ∧ (a.type ≠ name → reg.reducer st a = st.getD o.initialState)
    ∧ reg.reducer none a = reg.reducer (some o.initialState) a := by
  have hr := createAction_sync_ok name o reg h hreg hasync hh
  subst hr
  refine ⟨?_, ?_, rfl⟩
  · intro ht
    simp [syncReducer, ht]
  · intro ht
    simp only [syncReducer, if_neg ht]

/-- The registration that `createAction "a" c3Options` produces is `c3Reg`;
witness for C5: an action typed exactly `"a"` invokes the handler, another
type is identity. -/
theorem C5_witness :
    (c3Reg.reducer (some (.jnum 5)) { type := "a" } = .jstr "handled")
    ∧ (c3Reg.reducer (some (.jnum 5)) { type := "other" } = .jnum 5) :=
  ⟨(C5_sync_reducer_dispatch "a" c3Options c3Reg demoH rfl rfl rfl
      (some (.jnum 5)) { type := "a" }).1 rfl,
   (C5_sync_reducer_dispatch "a" c3Options c3Reg demoH rfl rfl rfl
      (some (.jnum 5)) { type := "other" }).2.1 (by decide)⟩

/-- Claim C6: `createAction` raises a fatal error — and hence returns no
`Registration`, so no reducer is merged into the registry — when the initial
state is omitted, when the store key is missing or the empty string (the error
names the action), when `async` is set with no handlers, when any of
`onWait`/`onSuccess`/`onFail` is not a function (the error names the first
offending handler in check order), and when the synchronous handler is not a
function (the error names the action). -/
theorem C6_registration_errors {P : Type} (name : String) (o : ActionOptions P) :
    (o.initialState = .undefined →
        createAction name o = .error "Initial state should not be null or undefined")
    ∧ (jtruthy o.initialState = true → (o.storeKey = .undefined ∨ o.storeKey = .jstr "") →
        createAction name o = .error ("Store key at action " ++ name ++ " not defined"))
    ∧ (jtruthy o.initialState = true → jtruthy o.storeKey = true →
        jtruthy o.async = true → o.handlers = none →
        createAction name o = .error ("Expected handlers in async action " ++ name))
    ∧ (∀ hs v, jtruthy o.initialState = true → jtruthy o.storeKey = true →
        jtruthy o.async = true → o.handlers = some hs → hs.onWait = .nonFn v →
        createAction name o = .error (errMessage "onWait"))
    ∧ (∀ hs w v, jtruthy o.initialState = true → jtruthy o.storeKey = true →
        jtruthy o.async = true → o.handlers = some hs → hs.onWait = .fn w →
        hs.onSuccess = .nonFn v →
        createAction name o = .error (errMessage "onSuccess"))
    ∧ (∀ hs w su v, jtruthy o.initialState = true → jtruthy o.storeKey = true →
        jtruthy o.async = true → o.handlers = some hs → hs.onWait = .fn w →
        hs.onSuccess = .fn su → hs.onFail = .nonFn v →
        createAction name o = .error (errMessage "onFail"))
    ∧ (∀ v, jtruthy o.initialState = true → jtruthy o.storeKey = true →
        jtruthy o.async = false → o.handler = .nonFn v →
        createAction name o = .error ("Expected that synchronous action " ++ name ++
          " handler will be a function, and it will returns new state")) := by
  refine ⟨?_, ?_, ?_, ?_, ?_, ?_, ?_⟩
  · intro h1
    simp [createAction, h1, jtruthy]
  · intro h1 h2
    have hk : jtruthy (JVal.jstr "" : JVal P) = false := by simp [jtruthy]
    have hu : jtruthy (JVal.undefined : JVal P) = false := rfl
    rcases h2 with h2 | h2 <;> simp [createAction, h1, h2, hk, hu]
  · intro h1 h2 h3 h4
    simp [createAction, h1, h2, h3, h4]
  · intro hs v h1 h2 h3 h4 h5
    simp [createAction, checkAsyncHandlers, isFunction, h1, h2, h3, h4, h5]
  · intro hs w v h1 h2 h3 h4 h5 h6
    simp [createAction, checkAsyncHandlers, isFunction, h1, h2, h3, h4, h5, h6]
  · intro hs w su v h1 h2 h3 h4 h5 h6 h7
    simp [createAction, checkAsyncHandlers, isFunction, h1, h2, h3, h4, h5, h6, h7]
  · intro v h1 h2 h3 h4
    simp [createAction, h1, h2, h3, h4]

/-- Witness for C6: all seven error scenarios at concrete option records
(initial state omitted; store key omitted; store key `""`; async with no
handlers; `onWait`/`onSuccess`/`onFail` a non-function; synchronous handler a
non-function). -/
theorem C6_witness :
    (createAction (P := Nat) "a" { action := demoAction }
        = .error "Initial state should not be null or undefined")
    ∧ (createAction (P := Nat) "a" { action := demoAction, initialState := .jobj [] }
        = .error "Store key at action a not defined")
    ∧ (createAction (P := Nat) "a"
        { action := demoAction, initialState := .jobj [], storeKey := .jstr "" }
        = .error "Store key at action a not defined")
    ∧ (createAction (P := Nat) "a"
        { action := demoAction, initialState := .jobj [], storeKey := .jstr "k",
          async := .jbool true }
        = .error "Expected handlers in async action a")
    ∧ (createAction (P := Nat) "a"
        { action := demoAction, initialState := .jobj [], storeKey := .jstr "k",
          async := .jbool true,
          handlers := some ⟨.nonFn (.jnum 5), .fn demoS, .fn demoF⟩ }
        = .error (errMessage "onWait"))
    ∧ (createAction (P := Nat) "a"
        { action := demoAction, initialState := .jobj [], storeKey := .jstr "k",
          async := .jbool true,
          handlers := some ⟨.fn demoW, .nonFn (.jnum 5), .fn demoF⟩ }
        = .error (errMessage "onSuccess"))
    ∧ (createAction (P := Nat) "a"
        { action := demoAction, initialState := .jobj [], storeKey := .jstr "k",
          async := .jbool true,
          handlers := some ⟨.fn demoW, .fn demoS, .nonFn (.jnum 5)⟩ }
        = .error (errMessage "onFail"))
    ∧ (createAction (P := Nat) "a"
        { action := demoAction, initialState := .jobj [], storeKey := .jstr "k",
          handler := .nonFn (.jstr "nope") }
        = .error ("Expected that synchronous action a handler will be a function, " ++
            "and it will returns new state")) :=
  ⟨(C6_registration_errors "a" _).1 rfl,
   (C6_registration_errors "a" _).2.1 rfl (Or.inl rfl),
   (C6_registration_errors "a" _).2.1 rfl (Or.inr rfl),
   (C6_registration_errors "a" _).2.2.1 rfl rfl rfl rfl,
   (C6_registration_errors "a" _).2.2.2.1 _ (.jnum 5) rfl rfl rfl rfl rfl,
   (C6_registration_errors "a" _).2.2.2.2.1 _ demoW (.jnum 5) rfl rfl rfl rfl rfl rfl,
   (C6_registration_errors "a" _).2.2.2.2.2.1 _ demoW demoS (.jnum 5) rfl rfl rfl rfl rfl rfl rfl,
   (C6_registration_errors "a" _).2.2.2.2.2.2 (.jstr "nope") rfl rfl rfl rfl⟩

/-- Claim C7: for a successful `createActions` call, each entry's async mode
resolves to (explicit flag truthy) OR (handlers present); per-entry
`initialState` / `storeKey` take precedence when truthy and fall back to the
globals otherwise; and the returned mapping has exactly the input's keys, each
bound to the creator obtained by registering that entry (resolved against the
globals) independently of the other entries. -/
theorem C7_batch_registration {P : Type} (opts : CreateActionsOptions P)
    (m : List (String × Registration P))
    (hm : createActions opts = .ok m) :
    m.map Prod.fst = opts.actions.map Prod.fst
    ∧ (∀ i (hi : i < opts.actions.length) (hmi : i < m.length),
        createAction (opts.actions.get ⟨i, hi⟩).1
            (resolveEntry (opts.actions.get ⟨i, hi⟩).2 opts.initialState opts.storeKey)
          = .ok (m.get ⟨i, hmi⟩).2)
    ∧ (∀ (e : ActionOptions P) (gI gK : JVal P),
        jtruthy (resolveEntry e gI gK).async = (jtruthy e.async || e.handlers.isSome)
        ∧ (resolveEntry e gI gK).initialState
            = (if jtruthy e.initialState then e.initialState else gI)
        ∧ (resolveEntry e gI gK).storeKey
            = (if jtruthy e.storeKey then e.storeKey else gK)) := by
  rw [createActions] at hm
  have hguard : jtruthy (objectKeys (P := P) opts.actions) = true := rfl
  rw [hguard] at hm
  simp only [Bool.not_true, if_neg (by simp : ¬((false : Bool) = true))] at hm
  obtain ⟨tail, htail, hmap, hget⟩ :=
    registerEntries_ok_spec opts.initialState opts.storeKey opts.actions [] m hm
  simp only [List.nil_append] at htail
  subst htail
  refine ⟨hmap, hget, ?_⟩
  intro e gI gK
  refine ⟨?_, rfl, rfl⟩
  have hb : ∀ b : Bool, jtruthy (JVal.jbool b : JVal P) = b := fun b => rfl
  by_cases ha : jtruthy e.async
  · simp [resolveEntry, jsOr, ha]
  · have ha2 : jtruthy e.async = false := by simpa using ha
    simp [resolveEntry, jsOr, ha2, hb]

/-- Batch entry `"a"`: synchronous, with per-entry `storeKey`/`initialState`
overriding the globals. -/
def c7OptA : ActionOptions Nat :=
  { action := demoAction, storeKey := .jstr "local", handler := .fn demoH,
    initialState := .jnum 7 }

/-- Batch entry `"b"`: async implied by the presence of handlers, globals used
for `storeKey`/`initialState`. -/
def c7OptB : ActionOptions Nat :=
  { action := demoAction, handlers := some demoHandlers }

/-- A concrete two-entry batch with global defaults. -/
def c7Opts : CreateActionsOptions Nat :=
  { actions := [("a", c7OptA), ("b", c7OptB)],
    initialState := .jobj [], storeKey := .jstr "K" }

/-- The mapping `createActions c7Opts` produces: entry `"a"` keeps its local
key and initial state, entry `"b"` falls back to the globals. -/
def c7M : List (String × Registration Nat) :=
  [("a", { mergedKey := .jstr "local"
           reducer := syncReducer "a" demoH (.jnum 7)
           creator := mkCreator "a" ("WAIT@" ++ "a") ("SUCCESS@" ++ "a") ("FAIL@" ++ "a")
                        false demoAction }),
   ("b", { mergedKey := .jstr "K"
           reducer := asyncReducer ("WAIT@" ++ "b") ("SUCCESS@" ++ "b") ("FAIL@" ++ "b")
                        demoHandlers (.jobj [])
           creator := mkCreator "b" ("WAIT@" ++ "b") ("SUCCESS@" ++ "b") ("FAIL@" ++ "b")
                        true demoAction })]

/-- Witness for C7: the concrete batch registers with exactly the keys
`["a", "b"]`. -/
theorem C7_witness : c7M.map Prod.fst = c7Opts.actions.map Prod.fst :=
  (C7_batch_registration c7Opts c7M rfl).1

/-- Claim C8: the initial-state guard `if (!initialState)` is
truthiness-based, so every falsy initial state — `0`, `""`, `false`, `NaN` —
is rejected with the "Initial state should not be null or undefined" error
even though a value was supplied. -/
theorem C8_falsy_initial_state_rejected {P : Type} (name : String) (o : ActionOptions P)
    (hfalsy : o.initialState = .jnum 0 ∨ o.initialState = .jstr "" ∨
              o.initialState = .jbool false ∨ o.initialState = .jnan) :
    createAction name o = .error "Initial state should not be null or undefined" := by
  have h0 : jtruthy o.initialState = false := by
    rcases hfalsy with h | h | h | h <;> simp [h, jtruthy]
  simp [createAction, h0]

/-- Witness for C8: registering with `initialState: 0` (a present but falsy
value) raises the missing-initial-state error. -/
theorem C8_witness :
    createAction (P := Nat) "a"
        { action := demoAction, storeKey := .jstr "k", handler := .fn demoH,
          initialState := .jnum 0 }
      = .error "Initial state should not be null or undefined" :=
  C8_falsy_initial_state_rejected "a" _ (Or.inl rfl)

/-- Claim C9: the per-entry-overrides rule in `createActions` is
truthiness-based: an entry whose own `storeKey` is `""` (or whose
`initialState` is falsy) silently uses the global default instead, so with a
valid global such an entry registers successfully rather than raising the
missing-store-key error. -/
theorem C9_falsy_entry_uses_global {P : Type} (n : String) (e : ActionOptions P)
    (gI gK : JVal P) (h : JVal P → DAction P → JVal P)
    (hk : e.storeKey = .jstr "")
    (hgk : jtruthy gK = true) :
    (resolveEntry e gI gK).storeKey = gK
    ∧ (jtruthy e.initialState = false → (resolveEntry e gI gK).initialState = gI)
    ∧ (jtruthy (jsOr e.initialState gI) = true → jtruthy e.async = false →
        e.handlers = none → e.handler = .fn h →
        createActions { actions := [(n, e)], initialState := gI, storeKey := gK }
          = .ok [(n, { mergedKey := gK
                       reducer := syncReducer n h (jsOr e.initialState gI)
                       creator := mkCreator n ("WAIT@" ++ n) ("SUCCESS@" ++ n)
                                    ("FAIL@" ++ n) false e.action })]) := by
  have hks : jtruthy (JVal.jstr "" : JVal P) = false := by simp [jtruthy]
  have hrk : (resolveEntry e gI gK).storeKey = gK := by
    simp [resolveEntry, jsOr, hk, hks]
  refine ⟨hrk, ?_, ?_⟩
  · intro hfi
    simp [resolveEntry, jsOr, hfi]
  · intro hri hfa hhs hh
    have hra : jtruthy (resolveEntry e gI gK).async = false := by
      simp [resolveEntry, jsOr, hfa, hhs]
      rfl
    have hca : createAction n (resolveEntry e gI gK)
        = .ok { mergedKey := gK
                reducer := syncReducer n h (jsOr e.initialState gI)
                creator := mkCreator n ("WAIT@" ++ n) ("SUCCESS@" ++ n)
                             ("FAIL@" ++ n) false e.action } := by
      rw [createAction]
      have hri2 : jtruthy (resolveEntry e gI gK).initialState = true := hri
      rw [hri2, hrk, hgk, hra]
      simp [resolveEntry, hh]
    simp [createActions, objectKeys, registerEntries, hca, jtruthy]

/-- Batch entry whose own `storeKey` is the empty string and whose
`initialState` is omitted. -/
def c9Entry : ActionOptions Nat :=
  { action := demoAction, storeKey := .jstr "", handler := .fn demoH }

/-- Witness for C9: the entry with `storeKey: ""` registers successfully
under the global key `"G"` with the global initial state. -/
theorem C9_witness :
    createActions
        { actions := [("a", c9Entry)], initialState := .jobj [], storeKey := .jstr "G" }
      = .ok [("a", { mergedKey := .jstr "G"
                     reducer := syncReducer "a" demoH (.jobj [])
                     creator := mkCreator "a" ("WAIT@" ++ "a") ("SUCCESS@" ++ "a")
                                  ("FAIL@" ++ "a") false demoAction })] :=
  (C9_falsy_entry_uses_global "a" c9Entry (.jobj []) (.jstr "G") demoH rfl rfl).2.2
    rfl rfl rfl rfl

/-- Claim C10: a direct `createAction` call with falsy `async` and a
`handlers` record present silently ignores the handlers: the synchronous path
is taken (so the single `handler` must be a function, else the synchronous
error is raised), the built reducer is the synchronous one, and the result is
entirely independent of the supplied handlers. -/
theorem C10_sync_ignores_handlers {P : Type} (name : String) (o : ActionOptions P)
    (hs : HandlersArg P)
    (hinit : jtruthy o.initialState = true)
    (hkey : jtruthy o.storeKey = true)
    (hasync : jtruthy o.async = false)
    (hhs : o.handlers = some hs) :
    (∀ v, o.handler = .nonFn v →
        createAction name o = .error ("Expected that synchronous action " ++ name ++
          " handler will be a function, and it will returns new state"))
    ∧ (∀ h, o.handler = .fn h →
        createAction name o =
          .ok { mergedKey := o.storeKey
                reducer := syncReducer name h o.initialState
                creator := mkCreator name ("WAIT@" ++ name) ("SUCCESS@" ++ name)
                             ("FAIL@" ++ name) false o.action }
        ∧ ∀ st a, a.type ≠ name → syncReducer name h o.initialState st a
            = st.getD o.initialState)
    ∧ (∀ hs2 : HandlersArg P,
        createAction name o = createAction name { o with handlers := some hs2 }) := by
  refine ⟨?_, ?_, ?_⟩
  · intro v hh
    simp [createAction, hinit, hkey, hasync, hh]
  · intro h hh
    constructor
    · simp [createAction, hinit, hkey, hasync, hh]
    · intro st a ht
      simp [syncReducer, if_neg ht]
  · intro hs2
    simp [createAction, hinit, hkey, hasync]

/-- Options for the C10 witness: `async` absent, `handlers` supplied, and the
single `handler` omitted (so not a function). -/
def c10BadOptions : ActionOptions Nat :=
  { action := demoAction, storeKey := .jstr "k", handlers := some demoHandlers,
    initialState := .jobj [] }

/-- Options for the C10 witness with a valid synchronous handler alongside
ignored async handlers. -/
def c10GoodOptions : ActionOptions Nat :=
  { action := demoAction, storeKey := .jstr "k", handlers := some demoHandlers,
    handler := .fn demoH, initialState := .jobj [] }

/-- Witness for C10: with handlers present but `async` falsy, the missing
synchronous handler raises the synchronous error, and a function handler
registers the synchronous reducer. -/
theorem C10_witness :
    (createAction (P := Nat) "a" c10BadOptions
      = .error ("Expected that synchronous action a handler will be a function, " ++
          "and it will returns new state"))
    ∧ (createAction (P := Nat) "a" c10GoodOptions
      = .ok { mergedKey := .jstr "k"
              reducer := syncReducer "a" demoH (.jobj [])
              creator := mkCreator "a" ("WAIT@" ++ "a") ("SUCCESS@" ++ "a")
                           ("FAIL@" ++ "a") false demoAction }) :=
  ⟨(C10_sync_ignores_handlers "a" c10BadOptions demoHandlers rfl rfl rfl rfl).1
      JNonFn.undefined rfl,
   ((C10_sync_ignores_handlers "a" c10GoodOptions demoHandlers rfl rfl rfl rfl).2.1
      demoH rfl).1⟩
